import Mathlib

/-!
Verification of the portfolio theta aggregator (`trading/theta_analyzer.py`).

The Python class `ThetaAnalyzer` is shallowly embedded here:

* an option position is a record of its fields, with the nullable numeric
  fields (`delta`, `theta`, `theta_decay_percentage`) as `Option ℚ`;
* the option-chain lookup (`stock.get_option_chains(client)` followed by
  `get_delta_from_option_symbol` / `get_theta_from_option_symbol`) is folded
  into a map `String → Option OptionChainData`, since the client handle is
  opaque and only threaded through;
* the constructor loop body is `initOptionWithCalls`, which also counts how
  many option-chain retrievals it performs;
* `analyze` is a pure function from the analyzer state to an
  `AnalyzeResult` recording the mutated state, the Python exception raised
  (if any), the returned value (if the method returns), and the sorted
  ranking list; Python's in-place stable `list.sort(key=..., reverse=True)`
  is modelled by a stable descending insertion sort on the ranking pairs.

Exceptions are modelled where the interpreter would raise them:
`ZeroDivisionError` at `- total_theta * 100 / total_principal` when the
accumulated principal is zero, `TypeError` when the ranking list has at
least two entries and a `None` sort key (Python cannot order `None` against
floats), and `IndexError` when `theta_decay_percentage_list[i]` is read for
`i in range(5)` on a list with fewer than five entries.  Field mutations
that happen before the exception is raised are kept in the resulting state,
as they are on the Python object.
-/

/-- One option position, as loaded from the account.  `delta`, `theta` and
`theta_decay_percentage` are nullable and written during construction. -/
structure OptionPosition where
  ticker : String
  option_symbol : String
  strike_price : ℚ
  short_quantity : ℚ
  expiration_date : Int
  delta : Option ℚ
  theta : Option ℚ
  theta_decay_percentage : Option ℚ
  deriving DecidableEq

/-- The option-chain data of one underlying: per-symbol delta and theta,
both nullable (`get_delta_from_option_symbol` / `get_theta_from_option_symbol`). -/
structure OptionChainData where
  get_delta_from_option_symbol : String → Option ℚ
  get_theta_from_option_symbol : String → Option ℚ

/-- Python truthiness of a nullable number: `None` and `0` are falsy.
Models the guard `if option.theta:`. -/
def pyTruthy : Option ℚ → Bool
  | none => false
  | some q => q != 0

/-- Body of the constructor loop of `ThetaAnalyzer.__init__` for one
position, paired with the number of `get_option_chains` calls it makes:
look the ticker up; on a miss, `continue` (zero calls); otherwise fetch the
chain data (one call), assign `delta` and `theta`, and, when the assigned
theta is truthy, set `theta_decay_percentage = - theta * 100 / strike_price`. -/
def initOptionWithCalls (tickerMap : String → Option OptionChainData)
    (o : OptionPosition) : OptionPosition × Nat :=
  match tickerMap o.ticker with
  | none => (o, 0)
  | some chains =>
    let o1 : OptionPosition :=
      { o with delta := chains.get_delta_from_option_symbol o.option_symbol,
               theta := chains.get_theta_from_option_symbol o.option_symbol }
    if pyTruthy o1.theta then
      let tdp : ℚ := (-(o1.theta.getD 0)) * 100 / o1.strike_price
      ({ o1 with theta_decay_percentage := some tdp }, 1)
    else (o1, 1)

/-- The position produced by one constructor-loop iteration. -/
def initOption (tickerMap : String → Option OptionChainData)
    (o : OptionPosition) : OptionPosition :=
  (initOptionWithCalls tickerMap o).1

/-- The aggregator state: the position list and the three accumulator
fields, which `__init__` starts at zero. -/
structure ThetaAnalyzer where
  options : List OptionPosition
  total_theta : ℚ
  total_principal : ℚ
  total_theta_decay_percentage : ℚ
  deriving DecidableEq

/-- `ThetaAnalyzer.__init__`: annotate every position via the constructor
loop and zero the accumulators. -/
def thetaAnalyzerInit (tickerMap : String → Option OptionChainData)
    (opts : List OptionPosition) : ThetaAnalyzer :=
  ⟨opts.map (initOption tickerMap), 0, 0, 0⟩

/-- The Python exceptions `analyze` can raise. -/
inductive PyError where
  | zeroDivisionError
  | typeError
  | indexError
  deriving DecidableEq

/-- One step of the accumulation loop of `analyze`: positions whose theta
is `None` are skipped; otherwise
`total_theta += theta * short_quantity * 100` and
`total_principal += strike_price * short_quantity * 100`. -/
def accumStep (acc : ℚ × ℚ) (o : OptionPosition) : ℚ × ℚ :=
  match o.theta with
  | none => acc
  | some t =>
    (acc.1 + t * o.short_quantity * 100, acc.2 + o.strike_price * o.short_quantity * 100)

/-- The accumulation loop of `analyze`, run from the current accumulator
values (they are `+=`-ed, not reset). -/
def accumulate (opts : List OptionPosition) (t0 p0 : ℚ) : ℚ × ℚ :=
  opts.foldl accumStep (t0, p0)

/-- The ranking list
`[(option.option_symbol, option.theta_decay_percentage) for option in options if option.theta is not None]`. -/
def rankingList (opts : List OptionPosition) : List (String × Option ℚ) :=
  (opts.filter fun o => o.theta.isSome).map fun o =>
    (o.option_symbol, o.theta_decay_percentage)

/-- Stable descending insertion of one ranking pair, comparing by the sort
key `x[1]` (`None` keys never reach the comparison: that case is the
modelled `TypeError`). -/
def insertDesc (x : String × Option ℚ) :
    List (String × Option ℚ) → List (String × Option ℚ)
  | [] => [x]
  | y :: ys =>
    if y.2.getD 0 ≤ x.2.getD 0 then x :: y :: ys else y :: insertDesc x ys

/-- Model of `theta_decay_percentage_list.sort(key=lambda x: x[1], reverse=True)`:
a stable descending sort by the second component. -/
def sortRanking : List (String × Option ℚ) → List (String × Option ℚ)
  | [] => []
  | x :: xs => insertDesc x (sortRanking xs)

/-- Outcome of one `analyze()` call: the state after all field writes that
happened before any exception, the exception raised (if any), the value
returned (if the call completes), and the sorted ranking list (when the
sort was reached and succeeded). -/
structure AnalyzeResult where
  state : ThetaAnalyzer
  error : Option PyError
  ret : Option ℚ
  ranking : List (String × Option ℚ)
  deriving DecidableEq

/-- `ThetaAnalyzer.analyze`: accumulate over positions with non-null theta,
set `total_theta_decay_percentage = - total_theta * 100 / total_principal`
(raising `ZeroDivisionError` on a zero principal, with the accumulator
writes kept), build and sort the ranking list (raising `TypeError` when a
`None` key must be compared), print the entries at indices `0..4` and
`-1..-5` (raising `IndexError` when the list has fewer than five entries),
and return the total percentage. -/
def analyze (st : ThetaAnalyzer) : AnalyzeResult :=
  let a := accumulate st.options st.total_theta st.total_principal
  if a.2 = 0 then
    ⟨⟨st.options, a.1, a.2, st.total_theta_decay_percentage⟩,
      some PyError.zeroDivisionError, none, []⟩
  else
    let pct := (-a.1) * 100 / a.2
    let l := rankingList st.options
    if 2 ≤ l.length ∧ (l.any fun e => e.2.isNone) = true then
      ⟨⟨st.options, a.1, a.2, pct⟩, some PyError.typeError, none, []⟩
    else if l.length < 5 then
      ⟨⟨st.options, a.1, a.2, pct⟩, some PyError.indexError, none, sortRanking l⟩
    else
      ⟨⟨st.options, a.1, a.2, pct⟩, none, some pct, sortRanking l⟩

/-- Convenience constructor for concrete positions: delta left null,
expiration date irrelevant to `analyze`. -/
def mkPos (tk sym : String) (strike qty : ℚ) (th tdp : Option ℚ) : OptionPosition :=
  ⟨tk, sym, strike, qty, 0, none, th, tdp⟩

/-- An empty ticker map: every lookup misses. -/
def emptyMap : String → Option OptionChainData := fun _ => none

/-- A fully-filtered portfolio: one position whose ticker is absent from
the map, so no position acquires a theta and the accumulated principal
stays zero. -/
def c1State : ThetaAnalyzer :=
  thetaAnalyzerInit emptyMap [mkPos "ZZZ" "ZZZ_P100" 100 1 none none]

/-- A constructed state with exactly two eligible positions (non-null
theta), nonzero accumulated principal, and non-null sort keys. -/
def c2State : ThetaAnalyzer :=
  ⟨[mkPos "AAA" "AAA_P100" 100 1 (some (-1)) (some 1),
    mkPos "BBB" "BBB_P200" 200 1 (some (-2)) (some 1)], 0, 0, 0⟩

/-- A constructed state with five eligible positions on which `analyze`
completes without an exception. -/
def c3State : ThetaAnalyzer :=
  ⟨[mkPos "AAA" "AAA_P100" 100 1 (some (-1)) (some 1),
    mkPos "BBB" "BBB_P100" 100 1 (some (-2)) (some 2),
    mkPos "CCC" "CCC_P100" 100 1 (some (-3)) (some 3),
    mkPos "DDD" "DDD_P100" 100 1 (some (-4)) (some 4),
    mkPos "EEE" "EEE_P100" 100 1 (some (-5)) (some 5)], 0, 0, 0⟩

/-- The spec's three-position scenario: strikes 100, 200, 50, short
quantity −1 each, thetas −0.05, −0.10, −0.02 (decay percentages as the
constructor computes them). -/
def c4State : ThetaAnalyzer :=
  ⟨[mkPos "AAA" "AAA_P100" 100 (-1) (some (-1/20)) (some (1/20)),
    mkPos "BBB" "BBB_P200" 200 (-1) (some (-1/10)) (some (1/20)),
    mkPos "CCC" "CCC_P50" 50 (-1) (some (-1/50)) (some (1/25))], 0, 0, 0⟩

/-- A constructed state with two eligible positions and nonzero
accumulated principal, used for the return-value claim. -/
def c7State : ThetaAnalyzer :=
  ⟨[mkPos "GGG" "GGG_P100" 100 1 (some (-1)) (some 1),
    mkPos "HHH" "HHH_P300" 300 1 (some (-3)) (some 1)], 0, 0, 0⟩

/-- Chain data whose theta is exactly 0 for every symbol. -/
def zeroThetaChain : OptionChainData :=
  ⟨fun _ => some (1/2), fun _ => some 0⟩

/-- Ticker map resolving exactly the ticker "AAA", to `zeroThetaChain`. -/
def zeroThetaMap : String → Option OptionChainData :=
  fun tk => if tk = "AAA" then some zeroThetaChain else none

/-- A raw position (fields not yet annotated) on ticker "AAA". -/
def rawPosAAA : OptionPosition := mkPos "AAA" "AAA_P100" 100 1 none none

/-- Chain data with a nonzero theta (−1) for every symbol. -/
def negThetaChain : OptionChainData :=
  ⟨fun _ => some (1/2), fun _ => some (-1)⟩

/-- Ticker map resolving exactly the ticker "BBB", to `negThetaChain`. -/
def negThetaMap : String → Option OptionChainData :=
  fun tk => if tk = "BBB" then some negThetaChain else none

/-- A raw position on ticker "BBB". -/
def rawPosBBB : OptionPosition := mkPos "BBB" "BBB_P200" 200 1 none none

/-- A raw position on a ticker absent from both concrete maps. -/
def rawPosMissing : OptionPosition := mkPos "QQQ" "QQQ_P100" 100 1 none none

/-- A position whose theta was retrieved as exactly 0 and whose
`theta_decay_percentage` kept its pre-construction value (null). -/
def zeroThetaPos : OptionPosition := mkPos "AAA" "AAA_P100" 100 1 (some 0) none

theorem accumStep_of_theta_none {acc : ℚ × ℚ} {o : OptionPosition}
    (h : o.theta = none) : accumStep acc o = acc := by
  simp [accumStep, h]

theorem accumStep_of_theta_some {acc : ℚ × ℚ} {o : OptionPosition} {t : ℚ}
    (h : o.theta = some t) :
    accumStep acc o =
      (acc.1 + t * o.short_quantity * 100,
       acc.2 + o.strike_price * o.short_quantity * 100) := by
  simp [accumStep, h]

theorem accumulate_cons (o : OptionPosition) (l : List OptionPosition) (t0 p0 : ℚ) :
    accumulate (o :: l) t0 p0
      = accumulate l (accumStep (t0, p0) o).1 (accumStep (t0, p0) o).2 := by
  simp [accumulate]

theorem accumulate_append (l1 l2 : List OptionPosition) (t0 p0 : ℚ) :
    accumulate (l1 ++ l2) t0 p0
      = accumulate l2 (accumulate l1 t0 p0).1 (accumulate l1 t0 p0).2 := by
  simp [accumulate, List.foldl_append]

theorem accumulate_shift (l : List OptionPosition) (t0 p0 : ℚ) :
    accumulate l t0 p0 = (t0 + (accumulate l 0 0).1, p0 + (accumulate l 0 0).2) := by
  induction l generalizing t0 p0 with
  | nil => simp [accumulate]
  | cons o l ih =>
    rcases h : o.theta with _ | t
    · simp only [accumulate_cons, accumStep_of_theta_none h]
      exact ih t0 p0
    · simp only [accumulate_cons, accumStep_of_theta_some h]
      rw [ih, ih (0 + t * o.short_quantity * 100)
        (0 + o.strike_price * o.short_quantity * 100)]
      simp only [Prod.mk.injEq]
      constructor <;> ring

theorem analyze_of_principal_zero (st : ThetaAnalyzer)
    (h : (accumulate st.options st.total_theta st.total_principal).2 = 0) :
    analyze st =
      ⟨⟨st.options, (accumulate st.options st.total_theta st.total_principal).1,
         (accumulate st.options st.total_theta st.total_principal).2,
         st.total_theta_decay_percentage⟩,
       some PyError.zeroDivisionError, none, []⟩ := by
  simp only [analyze]
  rw [if_pos h]

theorem analyze_of_none_key (st : ThetaAnalyzer)
    (h1 : ¬((accumulate st.options st.total_theta st.total_principal).2 = 0))
    (h2 : 2 ≤ (rankingList st.options).length ∧
      ((rankingList st.options).any fun e => e.2.isNone) = true) :
    analyze st =
      ⟨⟨st.options, (accumulate st.options st.total_theta st.total_principal).1,
         (accumulate st.options st.total_theta st.total_principal).2,
         (-(accumulate st.options st.total_theta st.total_principal).1) * 100
           / (accumulate st.options st.total_theta st.total_principal).2⟩,
       some PyError.typeError, none, []⟩ := by
  simp only [analyze]
  rw [if_neg h1, if_pos h2]

theorem analyze_of_short_ranking (st : ThetaAnalyzer)
    (h1 : ¬((accumulate st.options st.total_theta st.total_principal).2 = 0))
    (h2 : ¬(2 ≤ (rankingList st.options).length ∧
      ((rankingList st.options).any fun e => e.2.isNone) = true))
    (h3 : (rankingList st.options).length < 5) :
    analyze st =
      ⟨⟨st.options, (accumulate st.options st.total_theta st.total_principal).1,
         (accumulate st.options st.total_theta st.total_principal).2,
         (-(accumulate st.options st.total_theta st.total_principal).1) * 100
           / (accumulate st.options st.total_theta st.total_principal).2⟩,
       some PyError.indexError, none, sortRanking (rankingList st.options)⟩ := by
  simp only [analyze]
  rw [if_neg h1, if_neg h2, if_pos h3]

theorem analyze_of_complete (st : ThetaAnalyzer)
    (h1 : ¬((accumulate st.options st.total_theta st.total_principal).2 = 0))
    (h2 : ¬(2 ≤ (rankingList st.options).length ∧
      ((rankingList st.options).any fun e => e.2.isNone) = true))
    (h3 : ¬((rankingList st.options).length < 5)) :
    analyze st =
      ⟨⟨st.options, (accumulate st.options st.total_theta st.total_principal).1,
         (accumulate st.options st.total_theta st.total_principal).2,
         (-(accumulate st.options st.total_theta st.total_principal).1) * 100
           / (accumulate st.options st.total_theta st.total_principal).2⟩,
       none,
       some ((-(accumulate st.options st.total_theta st.total_principal).1) * 100
         / (accumulate st.options st.total_theta st.total_principal).2),
       sortRanking (rankingList st.options)⟩ := by
  simp only [analyze]
  rw [if_neg h1, if_neg h2, if_neg h3]

theorem analyze_options_eq (st : ThetaAnalyzer) :
    (analyze st).state.options = st.options := by
  by_cases h1 : (accumulate st.options st.total_theta st.total_principal).2 = 0
  · rw [analyze_of_principal_zero st h1]
  · by_cases h2 : 2 ≤ (rankingList st.options).length ∧
      ((rankingList st.options).any fun e => e.2.isNone) = true
    · rw [analyze_of_none_key st h1 h2]
    · by_cases h3 : (rankingList st.options).length < 5
      · rw [analyze_of_short_ranking st h1 h2 h3]
      · rw [analyze_of_complete st h1 h2 h3]

theorem guards_of_error_none (st : ThetaAnalyzer)
    (hc : (analyze st).error = none) :
    ¬((accumulate st.options st.total_theta st.total_principal).2 = 0) ∧
    ¬(2 ≤ (rankingList st.options).length ∧
      ((rankingList st.options).any fun e => e.2.isNone) = true) ∧
    ¬((rankingList st.options).length < 5) := by
  by_cases h1 : (accumulate st.options st.total_theta st.total_principal).2 = 0
  · rw [analyze_of_principal_zero st h1] at hc
    exact absurd hc (by simp)
  · by_cases h2 : 2 ≤ (rankingList st.options).length ∧
      ((rankingList st.options).any fun e => e.2.isNone) = true
    · rw [analyze_of_none_key st h1 h2] at hc
      exact absurd hc (by simp)
    · by_cases h3 : (rankingList st.options).length < 5
      · rw [analyze_of_short_ranking st h1 h2 h3] at hc
        exact absurd hc (by simp)
      · exact ⟨h1, h2, h3⟩

/-- C1: on a constructed state in which no position has a non-null theta
(here: a portfolio whose single position's ticker is absent from the map),
the accumulated principal is zero and `analyze()` hits the unguarded
division `- total_theta * 100 / total_principal`: it raises
`ZeroDivisionError` with no explicit guard or sentinel, returning nothing
(the claim's required "explicitly guarded error outcome" does not exist in
the code; the division-by-zero exception propagates unhandled). -/
theorem analyze_zero_principal_unguarded_crash :
    (analyze c1State).state.total_principal = 0 ∧
    (analyze c1State).error = some PyError.zeroDivisionError ∧
    (analyze c1State).ret = none := by
  norm_num [c1State, thetaAnalyzerInit, initOption, initOptionWithCalls, emptyMap,
    mkPos, analyze, accumulate, accumStep, rankingList]

/-- C2: on a constructed state with exactly two eligible positions the
ranking list has exactly two entries, but the top-5 reporting loop reads
`theta_decay_percentage_list[i]` for `i in range(5)` unconditionally, so
`analyze()` raises `IndexError` instead of reporting only the available
count. -/
theorem analyze_two_eligible_index_error :
    (rankingList c2State.options).length = 2 ∧
    (analyze c2State).error = some PyError.indexError ∧
    (analyze c2State).ret = none := by
  norm_num [c2State, mkPos, analyze, accumulate, accumStep, rankingList,
    List.filter, List.any, sortRanking, insertDesc]

/-- C4 counterexample: on the spec's three-position scenario (strikes 100,
200, 50, short quantity −1 each, thetas −0.05, −0.10, −0.02) the code
accumulates `total_principal = (100+200+50) * (−1) * 100 = −35000`, not the
claimed 35000. -/
theorem scenario_three_positions_principal_negative :
    (analyze c4State).state.total_principal = -35000 ∧
    ((-35000 : ℚ) ≠ 35000) := by
  norm_num [c4State, mkPos, analyze, accumulate, accumStep, rankingList,
    List.filter, List.any, sortRanking, insertDesc]

/-- C4 as amended: on the three-position scenario `analyze()` accumulates
`total_theta = 17`, `total_principal = −35000`, and sets
`total_theta_decay_percentage = −17·100/(−35000) = 17/350 ≈ +0.0486`
(the sign of the claimed principal and percentage flip because the short
quantities are −1; the call then raises `IndexError` in the ranking step,
with the accumulated fields as stated). -/
theorem scenario_three_positions_exact_totals :
    (analyze c4State).state.total_theta = 17 ∧
    (analyze c4State).state.total_principal = -35000 ∧
    (analyze c4State).state.total_theta_decay_percentage = 17 / 350 ∧
    (analyze c4State).error = some PyError.indexError := by
  norm_num [c4State, mkPos, analyze, accumulate, accumStep, rankingList,
    List.filter, List.any, sortRanking, insertDesc]

/-- C3 counterexample: `analyze()` is not idempotent.  On a concrete
constructed state with five eligible positions, a second `analyze()` call
leaves different `total_theta` and `total_principal` than the first: the
accumulators are `+=`-ed without being reset, so the second call doubles
them. -/
theorem analyze_twice_totals_differ :
    (analyze (analyze c3State).state).state.total_theta
      ≠ (analyze c3State).state.total_theta ∧
    (analyze (analyze c3State).state).state.total_principal
      ≠ (analyze c3State).state.total_principal := by
  norm_num [c3State, mkPos, analyze, accumulate, accumStep, rankingList,
    List.filter, List.any, sortRanking, insertDesc]

/-- C3 as amended: calling `analyze()` twice on an unchanged constructed
state (accumulators start at zero) yields the identical returned
`total_theta_decay_percentage` and the identical (deterministically sorted)
ranking list, but not identical totals: the second call doubles
`total_theta` and `total_principal`, because the accumulators are not
reset; the percentage is unchanged since the doubling cancels in the
ratio. -/
theorem analyze_twice_ratio_and_ranking_stable (st : ThetaAnalyzer)
    (h1 : st.total_theta = 0) (h2 : st.total_principal = 0)
    (hc : (analyze st).error = none) :
    (analyze (analyze st).state).error = none ∧
    (analyze (analyze st).state).ret = (analyze st).ret ∧
    (analyze (analyze st).state).ranking = (analyze st).ranking ∧
    (analyze (analyze st).state).state.total_theta
      = 2 * (analyze st).state.total_theta ∧
    (analyze (analyze st).state).state.total_principal
      = 2 * (analyze st).state.total_principal ∧
    (analyze (analyze st).state).state.total_theta_decay_percentage
      = (analyze st).state.total_theta_decay_percentage := by
  obtain ⟨g1, g2, g3⟩ := guards_of_error_none st hc
  have e1 := analyze_of_complete st g1 g2 g3
  rw [h1, h2] at g1 e1
  set S1 := (accumulate st.options 0 0).1 with hS1
  set S2 := (accumulate st.options 0 0).2 with hS2
  have hacc : accumulate st.options S1 S2 = (S1 + S1, S2 + S2) := by
    rw [accumulate_shift, ← hS1, ← hS2]
  have hsum : S2 + S2 ≠ 0 := fun h => g1 (add_self_eq_zero.mp h)
  have g1' : ¬((accumulate st.options S1 S2).2 = 0) := by
    rw [hacc]; exact hsum
  have e2 := analyze_of_complete ⟨st.options, S1, S2, (-S1) * 100 / S2⟩ g1' g2 g3
  rw [hacc] at e2
  have hdiv : (-(S1 + S1)) * 100 / (S2 + S2) = (-S1) * 100 / S2 := by
    field_simp
    ring
  rw [e1]
  dsimp only
  rw [e2]
  dsimp only
  rw [hdiv]
  refine ⟨rfl, rfl, rfl, by ring, by ring, rfl⟩

/-- C3 witness: the amended idempotence statement instantiated on the
concrete five-position state. -/
theorem analyze_twice_ratio_and_ranking_stable_witness :
    (analyze (analyze c3State).state).error = none ∧
    (analyze (analyze c3State).state).ret = (analyze c3State).ret ∧
    (analyze (analyze c3State).state).ranking = (analyze c3State).ranking ∧
    (analyze (analyze c3State).state).state.total_theta
      = 2 * (analyze c3State).state.total_theta := by
  have h := analyze_twice_ratio_and_ranking_stable c3State rfl rfl
    (by norm_num [c3State, mkPos, analyze, accumulate, accumStep, rankingList,
      List.filter, List.any, sortRanking, insertDesc])
  exact ⟨h.1, h.2.1, h.2.2.1, h.2.2.2.1⟩

/-- C5: a position with null theta contributes to neither accumulator
(removing it from anywhere in the list leaves `accumulate` unchanged), is
never an element of the ranking list (which filters on non-null theta), and
still remains in the aggregator's position list after `analyze()`. -/
theorem null_theta_excluded_but_retained (t0 p0 : ℚ)
    (l1 l2 : List OptionPosition) (p : OptionPosition) (h : p.theta = none) :
    accumulate (l1 ++ p :: l2) t0 p0 = accumulate (l1 ++ l2) t0 p0 ∧
    rankingList (l1 ++ p :: l2) = rankingList (l1 ++ l2) ∧
    ∀ tt pp dd : ℚ, p ∈ (analyze ⟨l1 ++ p :: l2, tt, pp, dd⟩).state.options := by
  refine ⟨?_, ?_, ?_⟩
  · rw [accumulate_append, accumulate_append, accumulate_cons,
      accumStep_of_theta_none h]
  · simp [rankingList, List.filter_append, List.filter_cons, h]
  · intro tt pp dd
    rw [analyze_options_eq]
    exact List.mem_append_right l1 (List.mem_cons_self p l2)

/-- C5 witness: the exclusion-and-retention statement instantiated on a
concrete eligible position followed by a concrete null-theta position. -/
theorem null_theta_excluded_but_retained_witness :
    accumulate ([mkPos "AAA" "AAA_P100" 100 1 (some (-1)) (some 1)]
        ++ mkPos "NNN" "NNN_P100" 100 1 none none :: []) 0 0
      = accumulate ([mkPos "AAA" "AAA_P100" 100 1 (some (-1)) (some 1)] ++ []) 0 0 ∧
    rankingList ([mkPos "AAA" "AAA_P100" 100 1 (some (-1)) (some 1)]
        ++ mkPos "NNN" "NNN_P100" 100 1 none none :: [])
      = rankingList ([mkPos "AAA" "AAA_P100" 100 1 (some (-1)) (some 1)] ++ []) ∧
    mkPos "NNN" "NNN_P100" 100 1 none none ∈
      (analyze ⟨[mkPos "AAA" "AAA_P100" 100 1 (some (-1)) (some 1)]
        ++ mkPos "NNN" "NNN_P100" 100 1 none none :: [], 0, 0, 0⟩).state.options := by
  have h := null_theta_excluded_but_retained 0 0
    [mkPos "AAA" "AAA_P100" 100 1 (some (-1)) (some 1)] []
    (mkPos "NNN" "NNN_P100" 100 1 none none) rfl
  exact ⟨h.1, h.2.1, h.2.2 0 0 0⟩

/-- C6 counterexample: a position whose ticker resolves and whose
retrieved theta is exactly 0 — non-null — does not get
`theta_decay_percentage` assigned (the guard `if option.theta:` tests
truthiness, and 0 is falsy), whereas the claim requires it to be set to
`-0 * 100 / strike = 0`. -/
theorem zero_theta_tdp_not_assigned :
    (initOption zeroThetaMap rawPosAAA).theta = some 0 ∧
    (initOption zeroThetaMap rawPosAAA).theta_decay_percentage = none ∧
    (none : Option ℚ) ≠ some ((-(0 : ℚ)) * 100 / rawPosAAA.strike_price) := by
  refine ⟨?_, ?_, by simp⟩ <;>
    norm_num [initOption, initOptionWithCalls, zeroThetaMap, zeroThetaChain,
      rawPosAAA, mkPos, pyTruthy]

/-- C6 as amended: during construction, for every position whose ticker
resolves and whose retrieved theta is non-null AND nonzero (Python-truthy),
`theta_decay_percentage` is set to `-theta * 100 / strike_price`; a
retrieved theta of exactly 0 leaves the field unchanged. -/
theorem tdp_assigned_when_theta_truthy (m : String → Option OptionChainData)
    (cd : OptionChainData) (o : OptionPosition) (t : ℚ)
    (hm : m o.ticker = some cd)
    (ht : cd.get_theta_from_option_symbol o.option_symbol = some t)
    (hnz : t ≠ 0) :
    (initOption m o).theta = some t ∧
    (initOption m o).theta_decay_percentage
      = some ((-t) * 100 / o.strike_price) := by
  constructor <;> simp [initOption, initOptionWithCalls, hm, ht, pyTruthy, hnz]

/-- C6 witness: the truthy-theta assignment instantiated on a concrete map
and position with retrieved theta −1. -/
theorem tdp_assigned_when_theta_truthy_witness :
    (initOption negThetaMap rawPosBBB).theta = some (-1) ∧
    (initOption negThetaMap rawPosBBB).theta_decay_percentage
      = some ((-(-1 : ℚ)) * 100 / rawPosBBB.strike_price) := by
  exact tdp_assigned_when_theta_truthy negThetaMap negThetaChain rawPosBBB (-1)
    (by norm_num [negThetaMap, rawPosBBB, mkPos])
    (by norm_num [negThetaChain]) (by norm_num)

/-- C7 counterexample: a constructed state with nonzero accumulated
principal on which `analyze()` nevertheless returns nothing: with only two
eligible positions it raises `IndexError` in the ranking step before
reaching the `return` statement. -/
theorem analyze_nonzero_principal_no_return :
    (accumulate c7State.options c7State.total_theta c7State.total_principal).2 ≠ 0 ∧
    (analyze c7State).ret = none := by
  norm_num [c7State, mkPos, analyze, accumulate, accumStep, rankingList,
    List.filter, List.any, sortRanking, insertDesc]

/-- C7 as amended: for every constructed state (accumulators start at
zero) whose accumulated principal is nonzero, `analyze()` sets
`total_theta_decay_percentage = -total_theta * 100 / total_principal` from
the just-accumulated totals, and whenever the call completes and returns,
the returned value is exactly that ratio. -/
theorem pct_formula_and_return (st : ThetaAnalyzer)
    (h1 : st.total_theta = 0) (h2 : st.total_principal = 0)
    (hP : (accumulate st.options 0 0).2 ≠ 0) :
    (analyze st).state.total_theta_decay_percentage
      = (-(accumulate st.options 0 0).1) * 100 / (accumulate st.options 0 0).2 ∧
    ∀ r : ℚ, (analyze st).ret = some r →
      r = (-(accumulate st.options 0 0).1) * 100 / (accumulate st.options 0 0).2 := by
  have hP' : ¬((accumulate st.options st.total_theta st.total_principal).2 = 0) := by
    rw [h1, h2]; exact hP
  by_cases hk : 2 ≤ (rankingList st.options).length ∧
      ((rankingList st.options).any fun e => e.2.isNone) = true
  · have e := analyze_of_none_key st hP' hk
    rw [h1, h2] at e
    rw [e]
    exact ⟨rfl, fun r hr => by simp at hr⟩
  · by_cases hl : (rankingList st.options).length < 5
    · have e := analyze_of_short_ranking st hP' hk hl
      rw [h1, h2] at e
      rw [e]
      exact ⟨rfl, fun r hr => by simp at hr⟩
    · have e := analyze_of_complete st hP' hk hl
      rw [h1, h2] at e
      rw [e]
      exact ⟨rfl, fun r hr => by simpa using hr.symm⟩

/-- C7 witness: the percentage-formula statement instantiated on the
concrete two-eligible-position state. -/
theorem pct_formula_and_return_witness :
    (analyze c7State).state.total_theta_decay_percentage
      = (-(accumulate c7State.options 0 0).1) * 100
          / (accumulate c7State.options 0 0).2 := by
  exact (pct_formula_and_return c7State rfl rfl
    (by norm_num [c7State, mkPos, accumulate, accumStep])).1

theorem accumulate_middle_some (l1 l2 : List OptionPosition)
    (p : OptionPosition) (t : ℚ) (hp : p.theta = some t) (t0 p0 : ℚ) :
    accumulate (l1 ++ p :: l2) t0 p0
      = ((accumulate (l1 ++ l2) t0 p0).1 + t * p.short_quantity * 100,
         (accumulate (l1 ++ l2) t0 p0).2
           + p.strike_price * p.short_quantity * 100) := by
  rw [accumulate_append, accumulate_append]
  generalize accumulate l1 t0 p0 = M
  rw [accumulate_cons, accumStep_of_theta_some hp]
  rw [accumulate_shift l2, accumulate_shift l2 M.1 M.2]
  simp only [Prod.mk.injEq]
  constructor <;> · dsimp only; ring

/-- C8: a position whose ticker is absent from the map is skipped by the
constructor without failing: the loop body returns it unchanged and makes
zero option-chain calls; and (its theta being still null, as on externally
created positions) it contributes to neither accumulator and never enters
the ranking list. -/
theorem missing_ticker_skipped (m : String → Option OptionChainData)
    (o : OptionPosition) (t0 p0 : ℚ) (l1 l2 : List OptionPosition)
    (hm : m o.ticker = none) (ho : o.theta = none) :
    initOptionWithCalls m o = (o, 0) ∧
    initOption m o = o ∧
    accumulate (l1 ++ o :: l2) t0 p0 = accumulate (l1 ++ l2) t0 p0 ∧
    rankingList (l1 ++ o :: l2) = rankingList (l1 ++ l2) := by
  have h0 : initOptionWithCalls m o = (o, 0) := by
    simp [initOptionWithCalls, hm]
  refine ⟨h0, ?_, ?_, ?_⟩
  · rw [initOption, h0]
  · rw [accumulate_append, accumulate_append, accumulate_cons,
      accumStep_of_theta_none ho]
  · simp [rankingList, List.filter_append, List.filter_cons, ho]

/-- C8 witness: the skip behaviour instantiated on a concrete map with no
entries and a concrete unannotated position. -/
theorem missing_ticker_skipped_witness :
    initOptionWithCalls emptyMap rawPosMissing = (rawPosMissing, 0) ∧
    initOption emptyMap rawPosMissing = rawPosMissing ∧
    accumulate ([mkPos "AAA" "AAA_P100" 100 1 (some (-1)) (some 1)]
        ++ rawPosMissing :: []) 0 0
      = accumulate ([mkPos "AAA" "AAA_P100" 100 1 (some (-1)) (some 1)] ++ []) 0 0 ∧
    rankingList ([mkPos "AAA" "AAA_P100" 100 1 (some (-1)) (some 1)]
        ++ rawPosMissing :: [])
      = rankingList ([mkPos "AAA" "AAA_P100" 100 1 (some (-1)) (some 1)] ++ []) := by
  exact missing_ticker_skipped emptyMap rawPosMissing 0 0
    [mkPos "AAA" "AAA_P100" 100 1 (some (-1)) (some 1)] [] rfl rfl

/-- C9: a position whose retrieved theta is exactly 0 (non-null) keeps its
pre-construction `theta_decay_percentage` (the truthiness guard skips the
assignment), yet `analyze()` treats it as eligible: it adds
`0 · short_quantity · 100 = 0` to `total_theta`, adds its full
`strike_price · short_quantity · 100` to `total_principal`, and appears in
the ranking list with whatever `theta_decay_percentage` it already had. -/
theorem zero_theta_eligible_in_analyze (m : String → Option OptionChainData)
    (cd : OptionChainData) (o p : OptionPosition) (t0 p0 : ℚ)
    (l1 l2 : List OptionPosition)
    (hm : m o.ticker = some cd)
    (ht : cd.get_theta_from_option_symbol o.option_symbol = some 0)
    (hp : p.theta = some 0) :
    (initOption m o).theta = some 0 ∧
    (initOption m o).theta_decay_percentage = o.theta_decay_percentage ∧
    (accumulate (l1 ++ p :: l2) t0 p0).1 = (accumulate (l1 ++ l2) t0 p0).1 ∧
    (accumulate (l1 ++ p :: l2) t0 p0).2
      = (accumulate (l1 ++ l2) t0 p0).2
          + p.strike_price * p.short_quantity * 100 ∧
    (p.option_symbol, p.theta_decay_percentage) ∈ rankingList (l1 ++ p :: l2) := by
  refine ⟨?_, ?_, ?_, ?_, ?_⟩
  · simp [initOption, initOptionWithCalls, hm, ht, pyTruthy]
  · simp [initOption, initOptionWithCalls, hm, ht, pyTruthy]
  · rw [accumulate_middle_some l1 l2 p 0 hp]
    dsimp only
    ring
  · rw [accumulate_middle_some l1 l2 p 0 hp]
  · simp only [rankingList, List.mem_map]
    refine ⟨p, ?_, rfl⟩
    rw [List.mem_filter]
    exact ⟨List.mem_append_right l1 (List.mem_cons_self p l2), by simp [hp]⟩

/-- C9 witness: the zero-theta behaviour instantiated on the concrete map
whose chain reports theta 0 and a concrete position carrying theta 0. -/
theorem zero_theta_eligible_in_analyze_witness :
    (initOption zeroThetaMap rawPosAAA).theta = some 0 ∧
    (initOption zeroThetaMap rawPosAAA).theta_decay_percentage
      = rawPosAAA.theta_decay_percentage ∧
    (accumulate ([] ++ zeroThetaPos :: []) 0 0).1
      = (accumulate ([] ++ []) 0 0).1 ∧
    (accumulate ([] ++ zeroThetaPos :: []) 0 0).2
      = (accumulate ([] ++ []) 0 0).2
          + zeroThetaPos.strike_price * zeroThetaPos.short_quantity * 100 ∧
    (zeroThetaPos.option_symbol, zeroThetaPos.theta_decay_percentage)
      ∈ rankingList ([] ++ zeroThetaPos :: []) := by
  exact zero_theta_eligible_in_analyze zeroThetaMap zeroThetaChain rawPosAAA
    zeroThetaPos 0 0 [] []
    (by norm_num [zeroThetaMap, rawPosAAA, mkPos]) rfl rfl

/-- C10: `analyze()` leaves the position list untouched — the resulting
state carries the very same list (hence the same membership, order, and
per-position field values); only the three total fields are written. -/
theorem analyze_frame_only_totals (st : ThetaAnalyzer) :
    (analyze st).state.options = st.options ∧
    (analyze st).state.options.length = st.options.length ∧
    ∀ p : OptionPosition,
      p ∈ (analyze st).state.options ↔ p ∈ st.options := by
  have h := analyze_options_eq st
  exact ⟨h, by rw [h], fun p => by rw [h]⟩
